import Mathlib

/-!
Verification development for the SMTP session engine in
`src/smtpd/smtp_session.c`. Every definition below is a shallow embedding
of a function or code path of that file (line numbers cited in the doc
comments), except the ones explicitly marked as modelled from the spec
because their code (the iobuf line framer) is not part of `src/`.
Bytes are modelled as `Nat` (values below 256), C strings as `List Char`
or `List Nat`, and the session structure as a Lean structure whose fields
mirror `struct smtp_session`.
-/

namespace Smtp

/-- C constant `SMTP_LINE_MAX` (smtpd.h; value 1024 per the spec and the
buffer sizes used in smtp_session.c). -/
def SMTP_LINE_MAX : Nat := 1024

/-- C constant `SMTP_KICKTHRESHOLD` (smtp_session.c line 46). -/
def SMTP_KICKTHRESHOLD : Nat := 50

/-- C constant `SMTP_MAXMAIL` (line 48). -/
def SMTP_MAXMAIL : Nat := 100

/-- C constant `SMTP_MAXRCPT` (line 49). -/
def SMTP_MAXRCPT : Nat := 1000

/-- Size of the C type `size_t` plus one: arithmetic on `size_t` fields is
done modulo this value. -/
def SIZE_MOD : Nat := 2 ^ 64

/-- ASCII lower-casing, as `tolower` does for the ASCII range used by
`strcasecmp` and `strncasecmp`. -/
def asciiLower (c : Char) : Char :=
  if 65 ≤ c.toNat ∧ c.toNat ≤ 90 then Char.ofNat (c.toNat + 32) else c

/-- `strcasecmp(a, b) == 0`: the two strings are equal up to ASCII case. -/
def lowerEqList (a b : List Char) : Bool :=
  a.map asciiLower = b.map asciiLower

/-- `strncasecmp(s, pat, pat.length) == 0`: `s` starts with `pat` up to
ASCII case.  When `s` is shorter than `pat` the C comparison hits the NUL
terminator of `s` against a non-NUL byte of `pat` and fails. -/
def startsWithCI (pat s : List Char) : Bool :=
  pat.length ≤ s.length ∧ (s.take pat.length).map asciiLower = pat.map asciiLower

/-- C `isspace` on the default locale (space, tab, newline, vertical tab,
form feed, carriage return). -/
def isCSpace (c : Char) : Bool :=
  c = ' ' ∨ c = '\t' ∨ c = '\n' ∨ c = '\x0b' ∨ c = '\x0c' ∨ c = '\r'

/-- `strchr`: split a list at the first occurrence of `c`, returning the
part before and the part after (the occurrence itself removed, matching
the `*p++ = NUL` idiom of the C code). -/
def splitFirst (c : Char) : List Char → Option (List Char × List Char)
  | [] => none
  | x :: rest =>
    if x = c then some ([], rest)
    else match splitFirst c rest with
      | some (b, a) => some (x :: b, a)
      | none => none

/-- `strrchr(args, ' ')` followed by `*b++ = NUL`: split a list at the
LAST space, returning the (truncated) part before and the token after. -/
def lastSplitSpace : List Char → Option (List Char × List Char)
  | [] => none
  | x :: rest =>
    match lastSplitSpace rest with
    | some (b, a) => some (x :: b, a)
    | none => if x = ' ' then some ([], rest) else none

/-- Result of `smtp_parse_mail_args` (lines 999-1020): either the loop
finished (returning 0) with the possibly-updated `F_8BITMIME` flag and the
truncated argument string, or a token hit the `503 5.5.4 Unsupported
option` branch (returning -1). -/
inductive MailArgsOut
  | accepted (eightbitmime : Bool) (rest : List Char)
  | unsupported (tok : List Char)
deriving DecidableEq

/-- `smtp_parse_mail_args` (lines 999-1020), embedded with explicit fuel;
each iteration of the C loop strictly shortens `args`, so fuel
`args.length + 1` always suffices.  NOTE the faithful embedding of the
C if-chain: the third test is `strcasecmp(b, "BODY=8BITMIME")` with NO
comparison against 0, so the empty statement runs when the token is NOT
`BODY=8BITMIME` and the `503` branch runs exactly when it IS. -/
def smtp_parse_mail_args_loop : Nat → Bool → List Char → MailArgsOut
  | 0, e, args => .accepted e args
  | fuel + 1, e, args =>
    match lastSplitSpace args with
    | none => .accepted e args
    | some (before, tok) =>
      if startsWithCI ("AUTH=").toList tok then
        smtp_parse_mail_args_loop fuel e before
      else if lowerEqList tok ("BODY=7BIT").toList then
        smtp_parse_mail_args_loop fuel false before
      else if ¬ lowerEqList tok ("BODY=8BITMIME").toList then
        smtp_parse_mail_args_loop fuel e before
      else
        .unsupported tok

/-- `smtp_parse_mail_args` entry point: fuel instantiated so that the loop
can never run out before `strrchr` returns NULL. -/
def smtp_parse_mail_args (eightbitmime : Bool) (args : List Char) : MailArgsOut :=
  smtp_parse_mail_args_loop (args.length + 1) eightbitmime args

/-- `memchr(buf, NUL, len)` over a byte list: index of the first zero
byte, if any. -/
def findNul : List Nat → Option Nat
  | [] => none
  | b :: rest => if b = 0 then some 0 else (findNul rest).map (fun i => i + 1)

/-- The C string starting at a given byte position: bytes up to the first
NUL (the decode buffer is NUL-terminated at index `len`, so a missing NUL
in the remainder means the string is exactly the remainder). -/
def cstr (l : List Nat) : List Nat := l.takeWhile (fun b => b ≠ 0)

/-- Result of the `S_AUTH_INIT` branch of `smtp_rfc4954_auth_plain`
(lines 915-945): abort (`501 Syntax error`, back to `S_HELO`) or forward
the user and password strings to the authentication worker. -/
inductive AuthPlainOut
  | abort
  | forward (user pass : List Nat)
deriving DecidableEq

/-- The credential-splitting logic of `smtp_rfc4954_auth_plain`
(lines 915-945), on the DECODED byte string `buf` of length `len`.
Faithful points: `__b64_pton` decodes into a 1024-byte buffer with cap
`sizeof(buf) - 1 = 1023` (longer output makes it return -1, hence abort);
the first NUL is located with `memchr` and the POINTER comparison
`user >= buf + len - 2` aborts when fewer than two bytes follow it;
`strlcpy` into `a->user` aborts when the C string length reaches the
user buffer cap; the second NUL is searched from `user` over the
remaining `len - (user - buf)` bytes with the same pointer check; and
`strlcpy` into `a->pass` has the corresponding cap check.  There is no
emptiness check on either field. -/
def smtp_auth_plain_parse (userCap passCap : Nat) (buf : List Nat) : AuthPlainOut :=
  if 1023 < buf.length then .abort
  else
    match findNul buf with
    | none => .abort
    | some p1 =>
      if buf.length - 2 ≤ p1 then .abort
      else if userCap ≤ (cstr (buf.drop (p1 + 1))).length then .abort
      else
        match findNul (buf.drop (p1 + 1)) with
        | none => .abort
        | some q =>
          if buf.length - 2 ≤ p1 + 1 + q then .abort
          else if passCap ≤ (cstr (buf.drop (p1 + 1 + q + 1))).length then .abort
          else
            .forward (cstr (buf.drop (p1 + 1))) (cstr (buf.drop (p1 + 1 + q + 1)))

/-- SMTP replies emitted via `smtp_reply`.  Fixed-text replies carry their
literal text; formatted replies carry their arguments symbolically. -/
inductive Reply
  | text (msg : String)
  | banner
  | greeting
  | heloRejected (code : Nat)
  | heloRequiresDomain (isHelo : Bool)
  | recipientOk (code : Nat)
  | recipientRejected (code : Nat)
  | unsupportedOption (tok : List Char)
  | authMethodNotSupported (m : List Char)
  | messageAccepted
deriving DecidableEq

/-- Session flag bits (`enum session_flags`, lines 78-88). -/
structure Flags where
  ehlo : Bool
  eightbitmime : Bool
  secure : Bool
  authenticated : Bool
  smtpEnd : Bool
  mfaEnd : Bool
  kick : Bool
deriving DecidableEq

/-- All flag bits clear. -/
def Flags.clear : Flags := ⟨false, false, false, false, false, false, false⟩

/-- Membership of one session id in each of the ten `wait_*` trees
(lines 162-171): `true` means the tree currently maps this session's key
to the session. -/
structure Reg where
  lkaPtr : Bool
  mfaConnect : Bool
  mfaData : Bool
  mfaHelo : Bool
  mfaMailfrom : Bool
  mfaRcpt : Bool
  parentAuth : Bool
  queueMsg : Bool
  queueFd : Bool
  queueCommit : Bool
deriving DecidableEq

/-- No registry contains the session. -/
def Reg.clear : Reg :=
  ⟨false, false, false, false, false, false, false, false, false, false⟩

/-- Requests the session composes to its collaborator processes via
`imsg_compose_event`. -/
inductive Request
  | dnsPtr
  | mfaConnect
  | mfaHelo
  | mfaMail
  | mfaRcpt
  | mfaRset
  | queueCreateMessage
  | queueMessageFile
  | queueCommitMessage
  | queueRemoveMessage
  | parentAuthenticate (user pass : List Nat)
deriving DecidableEq

/-- `enum smtp_state` (lines 65-76). -/
inductive SmtpState
  | sNew
  | sConnected
  | sTls
  | sHelo
  | sAuthInit
  | sAuthUsername
  | sAuthPassword
  | sAuthFinalize
  | sBody
  | sQuit
deriving DecidableEq

/-- Session phases (lines 90-94). -/
inductive Phase
  | pInit
  | pSetup
  | pTransaction
deriving DecidableEq

/-- `struct smtp_session` (lines 96-122), restricted to the fields the
claims are about, together with the observable effects of a step: the
replies queued on the iobuf, the imsg requests composed, the per-session
view of the `wait_*` registries, the `smtp.kick` statistic, and whether
`smtp_free` has run (with its reason). -/
structure Session where
  state : SmtpState
  phase : Phase
  flags : Flags
  kickcount : Nat
  mailcount : Nat
  rcptcount : Nat
  destcount : Nat
  dstatusTemp : Bool
  dstatusPerm : Bool
  helo : List Char
  evpId : Nat
  authUser : List Nat
  authPass : List Nat
  regs : Reg
  replies : List Reply
  requests : List Request
  statSmtpKick : Nat
  freed : Option String
deriving DecidableEq

/-- Externally provided behaviour the session code calls into: functions
from other compilation units (`valid_domainpart`, `email_to_mailaddr`,
`__b64_pton`), the listener flags, the filter mask, and the sizes of the
`struct auth` user/password buffers (smtpd.h is not part of src/). -/
structure Ext where
  validDomainpart : List Char → Bool
  emailToMailaddr : List Char → Bool
  b64decode : List Char → Option (List Nat)
  listenerStarttls : Bool
  listenerStarttlsRequire : Bool
  listenerAuth : Bool
  listenerAuthRequire : Bool
  listenerSmtps : Bool
  filtermaskDataline : Bool
  userCap : Nat
  passCap : Nat

/-- `ADVERTISE_TLS` macro (lines 124-125). -/
def advertiseTls (ext : Ext) (s : Session) : Bool :=
  ext.listenerStarttls ∧ ¬ s.flags.secure

/-- `ADVERTISE_AUTH` macro (lines 127-129). -/
def advertiseAuth (ext : Ext) (s : Session) : Bool :=
  ext.listenerAuth ∧ s.flags.secure ∧ ¬ s.flags.authenticated

/-- Queue one reply on the session (`smtp_reply`, lines 1138-1165). -/
def addReply (s : Session) (r : Reply) : Session :=
  { s with replies := s.replies ++ [r] }

/-- Compose one imsg request (`imsg_compose_event`). -/
def emitReq (s : Session) (r : Request) : Session :=
  { s with requests := s.requests ++ [r] }

/-- `size_t` decrement (`s->kickcount--`), wrapping at zero. -/
def decSize (k : Nat) : Nat := (k + (SIZE_MOD - 1)) % SIZE_MOD

/-- The abort path shared by both SASL sub-machines (lines 951-953 and
994-996): reply `501 Syntax error` and return to state `S_HELO`. -/
def authAbort (s : Session) : Session :=
  { s with replies := s.replies ++ [.text "501 Syntax error"],
           state := .sHelo }

/-- The decode half of `smtp_rfc4954_auth_plain` (lines 915-945): Base64
decode of the argument, credential split, then composition of the
`IMSG_PARENT_AUTHENTICATE` request, registration in `wait_parent_auth`,
and zeroing of the password buffer (`bzero(a->pass, ...)`, line 943). -/
def authPlainConsume (ext : Ext) (s : Session) (a : List Char) : Session :=
  match ext.b64decode a with
  | none => authAbort s
  | some buf =>
    match smtp_auth_plain_parse ext.userCap ext.passCap buf with
    | .abort => authAbort s
    | .forward u p =>
      { s with authUser := u,
               authPass := [],
               requests := s.requests ++ [.parentAuthenticate u p],
               regs := { s.regs with parentAuth := true } }

/-- `smtp_rfc4954_auth_plain` (lines 898-954).  From `S_HELO` with no
argument: challenge `334 ` and enter `S_AUTH_INIT`; with an inline
argument: enter `S_AUTH_INIT` and fall through to the decode.  From
`S_AUTH_INIT` (the challenge response line): decode.  Any other state is
`fatal` in C and unreachable through `smtp_command`; it is modelled as a
no-op. -/
def smtp_rfc4954_auth_plain (ext : Ext) (s : Session) (arg : Option (List Char)) :
    Session :=
  if s.state = .sHelo then
    match arg with
    | none =>
      { s with state := .sAuthInit,
               replies := s.replies ++ [.text "334 "] }
    | some a => authPlainConsume ext { s with state := .sAuthInit } a
  else if s.state = .sAuthInit then
    authPlainConsume ext s (arg.getD [])
  else s

/-- `smtp_rfc4954_auth_login` (lines 956-997).  The `__b64_pton` calls
decode into `a->user` / `a->pass` with cap `sizeof - 1`; decoded output
longer than the cap makes the decoder return -1, hence abort. -/
def smtp_rfc4954_auth_login (ext : Ext) (s : Session) (arg : Option (List Char)) :
    Session :=
  if s.state = .sHelo then
    { s with state := .sAuthUsername,
             replies := s.replies ++ [.text "334 VXNlcm5hbWU6"] }
  else if s.state = .sAuthUsername then
    match ext.b64decode (arg.getD []) with
    | none => authAbort s
    | some u =>
      if ext.userCap - 1 < u.length then authAbort s
      else
        { s with authUser := u,
                 state := .sAuthPassword,
                 replies := s.replies ++ [.text "334 UGFzc3dvcmQ6"] }
  else if s.state = .sAuthPassword then
    match ext.b64decode (arg.getD []) with
    | none => authAbort s
    | some p =>
      if ext.passCap - 1 < p.length then authAbort s
      else
        { s with authPass := [],
                 requests := s.requests ++ [.parentAuthenticate s.authUser p],
                 regs := { s.regs with parentAuth := true } }
  else s

/-- `smtp_mailaddr` (lines 1197-1208): requires a leading `<` and a
trailing `>`, overwrites the `>` with NUL (truncating the argument
string), and hands the inside to the external `email_to_mailaddr`.
Returns the success flag together with the truncated argument string as
seen by later code. -/
def smtp_mailaddr_chk (ext : Ext) (l : List Char) : Bool × List Char :=
  if l.head? = some '<' ∧ l.getLast? = some '>' then
    (ext.emailToMailaddr ((l.drop 1).dropLast), l.dropLast)
  else (false, l)

/-- The eleven command codes (lines 51-63). -/
inductive Cmd
  | cHelo
  | cEhlo
  | cStarttls
  | cAuth
  | cMailFrom
  | cRcptTo
  | cData
  | cRset
  | cQuit
  | cHelp
  | cNoop
deriving DecidableEq

/-- The command table lookup (lines 147-160 and 679-684):
case-insensitive exact match of the verb. -/
def cmdLookup (verb : List Char) : Option Cmd :=
  if lowerEqList verb ("HELO").toList then some .cHelo
  else if lowerEqList verb ("EHLO").toList then some .cEhlo
  else if lowerEqList verb ("STARTTLS").toList then some .cStarttls
  else if lowerEqList verb ("AUTH").toList then some .cAuth
  else if lowerEqList verb ("MAIL FROM").toList then some .cMailFrom
  else if lowerEqList verb ("RCPT TO").toList then some .cRcptTo
  else if lowerEqList verb ("DATA").toList then some .cData
  else if lowerEqList verb ("RSET").toList then some .cRset
  else if lowerEqList verb ("QUIT").toList then some .cQuit
  else if lowerEqList verb ("HELP").toList then some .cHelp
  else if lowerEqList verb ("NOOP").toList then some .cNoop
  else none

/-- The HELO/EHLO case of `smtp_command` (lines 690-719). -/
def cmdHeloCase (ext : Ext) (s : Session) (isEhlo : Bool)
    (args : Option (List Char)) : Session :=
  if s.phase ≠ .pInit then
    addReply s (.text "XXX Already indentified")
  else
    match args with
    | none => addReply s (.heloRequiresDomain (¬ isEhlo))
    | some a =>
      if ¬ ext.validDomainpart a then
        addReply s (.text "501 Invalid domain name")
      else
        let fl : Flags :=
          { Flags.clear with secure := s.flags.secure,
                             authenticated := s.flags.authenticated }
        let fl := if isEhlo then { fl with ehlo := true, eightbitmime := true }
                  else fl
        { s with helo := a,
                 flags := fl,
                 requests := s.requests ++ [.mfaHelo],
                 regs := { s.regs with mfaHelo := true } }

/-- The STARTTLS case of `smtp_command` (lines 723-739). -/
def cmdStarttlsCase (s : Session) (args : Option (List Char)) : Session :=
  if s.phase ≠ .pSetup then
    addReply s (.text "XXX Command not allowed at this point.")
  else if s.flags.secure then
    addReply s (.text "501 Channel already secured")
  else if args.isSome then
    addReply s (.text "501 No parameters allowed")
  else
    { s with replies := s.replies ++ [.text "220 Ready to start TLS"],
             state := .sTls }

/-- The AUTH case of `smtp_command` (lines 741-775). -/
def cmdAuthCase (ext : Ext) (s : Session) (args : Option (List Char)) : Session :=
  if s.phase ≠ .pSetup then
    addReply s (.text "XXX Command not allowed at this point.")
  else if s.flags.authenticated then
    addReply s (.text "503 Already authenticated")
  else if ¬ advertiseAuth ext s then
    addReply s (.text "503 Command not supported")
  else
    match args with
    | none => addReply s (.text "501 No parameters given")
    | some a =>
      let me : List Char × Option (List Char) :=
        match splitFirst ' ' a with
        | some (m, e) => (m, some e)
        | none =>
          match splitFirst '\t' a with
          | some (m, e) => (m, some e)
          | none => (a, none)
      if lowerEqList me.1 ("PLAIN").toList then
        smtp_rfc4954_auth_plain ext s me.2
      else if lowerEqList me.1 ("LOGIN").toList then
        smtp_rfc4954_auth_login ext s me.2
      else
        addReply s (.authMethodNotSupported me.1)

/-- The MAIL FROM case of `smtp_command` (lines 777-815).  NOTE the
faithful ordering: `smtp_mailaddr` runs on the raw argument FIRST
(line 802) and `smtp_parse_mail_args` only afterwards (line 807) on the
string `smtp_mailaddr` truncated at the `>`. -/
def cmdMailFromCase (ext : Ext) (s : Session) (args : Option (List Char)) :
    Session :=
  if s.phase ≠ .pSetup then
    addReply s (.text "XXX Command not allowed at this point.")
  else if ext.listenerStarttlsRequire ∧ ¬ s.flags.secure then
    addReply s (.text "530 5.7.0 Must issue a STARTTLS command first")
  else if ext.listenerAuthRequire ∧ ¬ s.flags.authenticated then
    addReply s (.text "530 5.7.0 Must issue an AUTH command first")
  else if SMTP_MAXMAIL ≤ s.mailcount then
    addReply s (.text "452 Too many messages sent")
  else
    let chk := smtp_mailaddr_chk ext (args.getD [])
    if ¬ chk.1 then
      addReply s (.text "553 5.1.7 Sender address syntax error")
    else if s.flags.ehlo then
      match smtp_parse_mail_args s.flags.eightbitmime chk.2 with
      | .unsupported tok => addReply s (.unsupportedOption tok)
      | .accepted e _ =>
        { s with flags := { s.flags with eightbitmime := e },
                 requests := s.requests ++ [.mfaMail],
                 regs := { s.regs with mfaMailfrom := true } }
    else
      { s with requests := s.requests ++ [.mfaMail],
               regs := { s.regs with mfaMailfrom := true } }

/-- The RCPT TO case of `smtp_command` (lines 819-840). -/
def cmdRcptToCase (ext : Ext) (s : Session) (args : Option (List Char)) :
    Session :=
  if s.phase ≠ .pTransaction then
    addReply s (.text "XXX Command not allowed at this point.")
  else if SMTP_MAXRCPT ≤ s.rcptcount then
    addReply s (.text "452 Too many recipients")
  else if ¬ (smtp_mailaddr_chk ext (args.getD [])).1 then
    addReply s (.text "553 5.1.3 Recipient address syntax error")
  else
    { s with requests := s.requests ++ [.mfaRcpt],
             regs := { s.regs with mfaRcpt := true } }

/-- The RSET case of `smtp_command` (lines 842-854): allowed ONLY in
phase TRANSACTION; out of that phase the placeholder rejection is sent
and nothing changes. -/
def cmdRsetCase (s : Session) : Session :=
  if s.phase ≠ .pTransaction then
    addReply s (.text "XXX Command not allowed at this point.")
  else
    { s with requests := s.requests ++ [.mfaRset],
             replies := s.replies ++ [.text "250 2.0.0 Reset state"],
             phase := .pSetup,
             evpId := 0 }

/-- The DATA case of `smtp_command` (lines 856-871). -/
def cmdDataCase (s : Session) : Session :=
  if s.phase ≠ .pTransaction then
    addReply s (.text "XXX Command not allowed at this point.")
  else if s.rcptcount = 0 then
    addReply s (.text "503 5.5.1 No recipient specified")
  else
    { s with requests := s.requests ++ [.queueMessageFile],
             regs := { s.regs with queueFd := true } }

/-- The HELP case of `smtp_command` (lines 884-890). -/
def cmdHelpCase (s : Session) : Session :=
  { s with replies := s.replies ++
      [.text "214- This is OpenSMTPD",
       .text "214- To report bugs in the implementation, please contact bugs@openbsd.org",
       .text "214- with full details",
       .text "214 End of HELP info"] }

/-- The body of `smtp_command` after the kick accounting (lines 651-895):
the SASL sub-states capture the line verbatim; otherwise the
verb/argument split (`MAIL FROM:` and `RCPT TO:` split at the colon,
everything else at the first space, whitespace after the separator
skipped) and the dispatch over the command table. -/
def smtp_command_dispatch (ext : Ext) (s : Session) (line : List Char) : Session :=
  if s.state = .sAuthInit then
    smtp_rfc4954_auth_plain ext s (some line)
  else if s.state = .sAuthUsername ∨ s.state = .sAuthPassword then
    smtp_rfc4954_auth_login ext s (some line)
  else
    let split :=
      if startsWithCI ("mail from:").toList line ∨ startsWithCI ("rcpt to:").toList line
      then splitFirst ':' line
      else splitFirst ' ' line
    let verb := match split with
      | none => line
      | some (v, _) => v
    let args : Option (List Char) :=
      match split with
      | none => none
      | some (_, rest) => some (rest.dropWhile (fun c => isCSpace c))
    match cmdLookup verb with
    | some .cHelo => cmdHeloCase ext s false args
    | some .cEhlo => cmdHeloCase ext s true args
    | some .cStarttls => cmdStarttlsCase s args
    | some .cAuth => cmdAuthCase ext s args
    | some .cMailFrom => cmdMailFromCase ext s args
    | some .cRcptTo => cmdRcptToCase ext s args
    | some .cData => cmdDataCase s
    | some .cRset => cmdRsetCase s
    | some .cQuit =>
      { s with replies := s.replies ++ [.text "221 2.0.0 Bye"],
               state := .sQuit }
    | some .cHelp => cmdHelpCase s
    | some .cNoop => addReply s (.text "250 2.0.0 Ok")
    | none => addReply s (.text "500 Command unrecognized")

/-- `smtp_command` (lines 633-896): the kick accounting comes first — the
counter is a `size_t`, incremented for EVERY received line (commands and
SASL sub-lines alike), and when the incremented value reaches
`SMTP_KICKTHRESHOLD` the command is dropped, `F_KICK` is set and the
`smtp.kick` statistic is bumped (lines 643-649); otherwise the line is
dispatched. -/
def smtp_command (ext : Ext) (s0 : Session) (line : List Char) : Session :=
  if SMTP_KICKTHRESHOLD ≤ (s0.kickcount + 1) % SIZE_MOD then
    { s0 with kickcount := (s0.kickcount + 1) % SIZE_MOD,
              flags := { s0.flags with kick := true },
              statSmtpKick := s0.statSmtpKick + 1 }
  else
    smtp_command_dispatch ext { s0 with kickcount := (s0.kickcount + 1) % SIZE_MOD }
      line

/-- `smtp_free` (lines 1167-1195), restricted to its observable effects on
the modelled state: the session is popped from `wait_mfa_data` — and from
NO other registry (line 1174 is the only `tree_pop`) — a
`IMSG_QUEUE_REMOVE_MESSAGE` is composed when an envelope id is live, and
the session is gone with the given reason.  (Closing the spool file,
clearing the iobuf and the stat decrements have no counterpart in the
modelled fields.) -/
def smtp_free_sess (s : Session) (reason : String) : Session :=
  { s with regs := { s.regs with mfaData := false },
           requests := s.requests ++
             (if s.evpId ≠ 0 then [.queueRemoveMessage] else []),
           freed := some reason }

/-- The command half of the `IO_DATAIN` handler (lines 584-591): run
`smtp_command` on the line just framed, then dispose the session with
reason `kick` when `F_KICK` was set. -/
def smtp_datain_command (ext : Ext) (s : Session) (line : List Char) : Session :=
  let s1 := smtp_command ext s line
  if s1.flags.kick then smtp_free_sess s1 "kick" else s1

/-- Feed a sequence of already-framed command lines to the session, one
`IO_DATAIN` command dispatch each; a freed session receives no further
events. -/
def runCommandLines (ext : Ext) : Session → List (List Char) → Session
  | s, [] => s
  | s, l :: rest =>
    if (s.freed).isSome then s
    else runCommandLines ext (smtp_datain_command ext s l) rest

/-- Entering state `S_CONNECTED` (`smtp_enter_state`, lines 1041-1048):
compose `IMSG_MFA_CONNECT` and register in `wait_mfa_connect`. -/
def smtp_enter_connected (s : Session) : Session :=
  { s with state := .sConnected,
           requests := s.requests ++ [.mfaConnect],
           regs := { s.regs with mfaConnect := true } }

/-- The `IMSG_MFA_CONNECT` handler (lines 256-275): `tree_xpop` from
`wait_mfa_connect` (fatal when absent, modelled as `none`); on filter
rejection, `smtp_free` with reason `rejected by filter`; on an SMTPS
listener, start the TLS handshake; otherwise send the banner and enter
`S_HELO`. -/
def imsg_mfa_connect (ext : Ext) (s : Session) (ok : Bool) : Option Session :=
  if ¬ s.regs.mfaConnect then none
  else
    let s := { s with regs := { s.regs with mfaConnect := false } }
    if ¬ ok then some (smtp_free_sess s "rejected by filter")
    else if ext.listenerSmtps then some s
    else some { s with replies := s.replies ++ [.banner], state := .sHelo }

/-- The `IMSG_MFA_HELO` handler (lines 277-305): on filter OK, greeting
plus (for EHLO) the extension lines, `kickcount` reset to zero and phase
SETUP. -/
def imsg_mfa_helo (ext : Ext) (s : Session) (ok : Bool) (code : Nat) :
    Option Session :=
  if ¬ s.regs.mfaHelo then none
  else
    let s := { s with regs := { s.regs with mfaHelo := false } }
    if ¬ ok then some (addReply s (.heloRejected code))
    else
      let exts : List Reply :=
        if s.flags.ehlo then
          [.text "250-8BITMIME", .text "250-ENHANCEDSTATUSCODES",
           .text "250-SIZE"] ++
          (if advertiseTls ext s then [.text "250-STARTTLS"] else []) ++
          (if advertiseAuth ext s then [.text "250-AUTH PLAIN LOGIN"] else []) ++
          [.text "250 HELP"]
        else []
      some { s with replies := s.replies ++ [.greeting] ++ exts,
                    kickcount := 0,
                    phase := .pSetup }

/-- The `IMSG_MFA_RCPT` handler (lines 325-341): `tree_xpop` from
`wait_mfa_rcpt` in EVERY case; on rejection the `%d 5.0.0 Recipient
rejected` reply; on `MFA_OK` the handler DIRECTLY bumps `rcptcount`,
decrements `kickcount` and replies `%d 2.0.0 Recipient ok` — no queue
request is composed. -/
def imsg_mfa_rcpt (s : Session) (ok : Bool) (code : Nat) : Option Session :=
  if ¬ s.regs.mfaRcpt then none
  else
    let s := { s with regs := { s.regs with mfaRcpt := false } }
    if ¬ ok then some (addReply s (.recipientRejected code))
    else some { s with rcptcount := s.rcptcount + 1,
                       kickcount := decSize s.kickcount,
                       replies := s.replies ++ [.recipientOk code] }

/-- The `IMSG_QUEUE_SUBMIT_ENVELOPE` handler (lines 430-437): `tree_xget`
on `wait_mfa_rcpt` — FATAL when the session is not registered there
(modelled as `none`); on success `destcount++`, otherwise
`DS_TEMPFAILURE`. -/
def imsg_queue_submit_envelope (s : Session) (success : Bool) : Option Session :=
  if ¬ s.regs.mfaRcpt then none
  else if success then some { s with destcount := s.destcount + 1 }
  else some { s with dstatusTemp := true }

/-- The `IMSG_QUEUE_COMMIT_ENVELOPES` handler (lines 439-447): `tree_xpop`
from `wait_mfa_rcpt` (fatal when absent), then `rcptcount++`,
`kickcount--` and the literal reply `250 2.0.0 Recipient ok`. -/
def imsg_queue_commit_envelopes (s : Session) : Option Session :=
  if ¬ s.regs.mfaRcpt then none
  else some { s with regs := { s.regs with mfaRcpt := false },
                     rcptcount := s.rcptcount + 1,
                     kickcount := decSize s.kickcount,
                     replies := s.replies ++ [.text "250 2.0.0 Recipient ok"] }

/-- The `IMSG_QUEUE_COMMIT_MESSAGE` handler (lines 449-478): on success,
the acceptance reply, `mailcount++`, envelope id cleared, phase SETUP,
`kickcount` reset to zero and state `S_HELO`.  (The failure reply keeps
the code's typo `Temporay`.) -/
def imsg_queue_commit_message (s : Session) (success : Bool) : Option Session :=
  if ¬ s.regs.queueCommit then none
  else
    let s := { s with regs := { s.regs with queueCommit := false } }
    if ¬ success then some (addReply s (.text "421 Temporay failure"))
    else some { s with replies := s.replies ++ [.messageAccepted],
                       mailcount := s.mailcount + 1,
                       evpId := 0,
                       phase := .pSetup,
                       kickcount := 0,
                       state := .sHelo }

/-- The `IMSG_PARENT_AUTHENTICATE` handler (lines 480-497): `tree_xpop`
from `wait_parent_auth`; success sets `F_AUTHENTICATED`, resets
`kickcount` and replies 235; failure replies 535. -/
def imsg_parent_auth (s : Session) (success : Bool) : Option Session :=
  if ¬ s.regs.parentAuth then none
  else
    let s := { s with regs := { s.regs with parentAuth := false } }
    if success then
      some { s with kickcount := 0,
                    flags := { s.flags with authenticated := true },
                    replies := s.replies ++ [.text "235 Authentication succeeded"] }
    else some (addReply s (.text "535 Authentication failed"))

/-- The `IO_TLSREADY` handler (lines 519-532): `F_SECURE` set, `kickcount`
reset to zero; SMTPS listeners additionally get the banner. -/
def smtp_tls_ready (ext : Ext) (s : Session) : Session :=
  let s := { s with flags := { s.flags with secure := true }, kickcount := 0 }
  if ext.listenerSmtps then { s with replies := s.replies ++ [.banner] }
  else s

/-- Index of the first LF in the framer buffer, if any. -/
def findLF : List Char → Option Nat
  | [] => none
  | c :: rest =>
    if c = '\n' then some 0 else (findLF rest).map (fun i => i + 1)

/-- Modelled from the spec: `iobuf_getline` lives in iobuf.c, which is not
part of `src/`.  Per spec section 4.2, a line is the bytes up to and
including the next LF, returned without the trailing CRLF; the consumed
bytes are dropped from the buffer.  Returns the stripped line and the
remaining buffer. -/
def iobuf_getline_m (buf : List Char) : Option (List Char × List Char) :=
  match findLF buf with
  | none => none
  | some i =>
    let raw := buf.take i
    let line := if raw.getLast? = some '\r' then raw.dropLast else raw
    some (line, buf.drop (i + 1))

/-- Outcome of one iteration of the `IO_DATAIN` loop. -/
inductive DatainAct
  | needMore
  | halt
  | bodyLine (line rest : List Char)
  | endOfBody
  | command (line : List Char)
deriving DecidableEq

/-- Observable result of one iteration of the `IO_DATAIN` loop: the
action taken, the reply queued (if any), the state entered via
`smtp_enter_state` (if any), and whether the read side was switched off
(`io_set_write`). -/
structure DatainOut where
  act : DatainAct
  reply : Option Reply
  nextState : Option SmtpState
  readStopped : Bool
deriving DecidableEq

/-- One iteration of the `IO_DATAIN` handler (lines 534-592), in the
code's exact order: the line-too-long check (both for an unframed buffer
that already reached `SMTP_LINE_MAX` and for a framed line of length at
least `SMTP_LINE_MAX`); the incomplete-line return; the body branch for a
line in state `S_BODY` that is not the bare dot (forwarded to the filter
or spooled, then `goto nextline` on the rest); the residual-bytes
(pipelining) rejection; the end-of-body branch; and finally the command
dispatch. -/
def smtp_datain_step (st : SmtpState) (buf : List Char) : DatainOut :=
  match iobuf_getline_m buf with
  | none =>
    if SMTP_LINE_MAX ≤ buf.length then
      ⟨.halt, some (.text "500 5.0.0 Line too long"), some .sQuit, true⟩
    else ⟨.needMore, none, none, false⟩
  | some (line, rest) =>
    if SMTP_LINE_MAX ≤ line.length then
      ⟨.halt, some (.text "500 5.0.0 Line too long"), some .sQuit, true⟩
    else if st = .sBody ∧ line ≠ ['.'] then
      ⟨.bodyLine line rest, none, none, false⟩
    else if rest ≠ [] then
      ⟨.halt, some (.text "500 5.0.0 Pipelining not supported"), some .sQuit, true⟩
    else if st = .sBody then
      ⟨.endOfBody, none, none, true⟩
    else
      ⟨.command line, none, none, true⟩

/-- The session fields touched by the body ingester `smtp_queue_data`
(lines 1097-1136): the delivery status bits, the `F_8BITMIME` flag, the
spool file contents (whose length is what `ftell(s->ofile)` returns), the
configured `env->sc_maxsize`, and the reply channel (never used by this
function). -/
structure BodySession where
  dstatusTemp : Bool
  dstatusPerm : Bool
  allow8bitmime : Bool
  spool : List Nat
  maxsize : Nat
  replies : List Reply
deriving DecidableEq

/-- The 8BIT-to-7BIT downgrade of lines 1129-1132: clear the high bit of
each byte when `F_8BITMIME` is unset. -/
def maskByte (b : Nat) : Nat := if b &&& 128 ≠ 0 then b &&& 127 else b

/-- Apply the downgrade to a whole line when `F_8BITMIME` is unset. -/
def maskLine (allow8 : Bool) (l : List Nat) : List Nat :=
  if allow8 then l else l.map maskByte

/-- `smtp_queue_data` (lines 1097-1136): discard the line outright when a
delivery failure is already recorded; strip a leading dot (`*line == '.'`
then `line++`); set `DS_PERMFAILURE` when the size would overflow
`SIZE_MAX` or exceed `sc_maxsize`; otherwise append the (possibly
downgraded) line plus LF to the spool.  The `fprintf` short-write test of
line 1134 is modelled as always succeeding (the spool is a pure list). -/
def smtp_queue_data (s : BodySession) (line : List Nat) : BodySession :=
  if s.dstatusPerm ∨ s.dstatusTemp then s
  else
    let line1 := if line.head? = some 46 then line.tail else line
    let len := line1.length
    let datalen := s.spool.length
    if SIZE_MOD - 1 - datalen < len + 1 ∨ s.maxsize < datalen + len + 1 then
      { s with dstatusPerm := true }
    else
      { s with spool := s.spool ++ maskLine s.allow8bitmime line1 ++ [10] }

/-- The per-line dispatch of state `S_BODY` in `IO_DATAIN` (lines 551-581)
at the level of a single already-framed line of body bytes: the bare dot
ends the body (nothing is written for that line), every other line goes
through `smtp_queue_data`.  Returns the new body state and whether the
body ended. -/
def bodyLineStep (s : BodySession) (line : List Nat) : BodySession × Bool :=
  if line = [46] then (s, true)
  else (smtp_queue_data s line, false)

/-- A session as freshly allocated by `smtp_session` (lines 196-229):
state `S_NEW`, phase INIT, everything zero. -/
def newSession : Session :=
  { state := .sNew, phase := .pInit, flags := Flags.clear, kickcount := 0,
    mailcount := 0, rcptcount := 0, destcount := 0, dstatusTemp := false,
    dstatusPerm := false, helo := [], evpId := 0, authUser := [],
    authPass := [], regs := Reg.clear, replies := [], requests := [],
    statSmtpKick := 0, freed := none }

/-- A concrete external environment for closed evaluations: permissive
predicates, a decoder that ignores its input, no listener flags, caps 64
(the theorems that depend on the environment quantify over it). -/
def extDefault : Ext :=
  { validDomainpart := fun _ => true,
    emailToMailaddr := fun _ => true,
    b64decode := fun _ => some [],
    listenerStarttls := false,
    listenerStarttlsRequire := false,
    listenerAuth := false,
    listenerAuthRequire := false,
    listenerSmtps := false,
    filtermaskDataline := false,
    userCap := 64,
    passCap := 64 }

/-- The session right after the `IMSG_MFA_CONNECT` approval on a plain
listener: banner queued, state `S_HELO`, phase still INIT. -/
def sessionAtHelo : Session :=
  (imsg_mfa_connect extDefault (smtp_enter_connected newSession) true).getD
    newSession

/-- A session in phase SETUP after a successful EHLO (flags as set by
lines 709-713 and the `IMSG_MFA_HELO` approval), with the reply log
cleared for readability of the closed evaluations. -/
def sessSetupEhlo : Session :=
  { sessionAtHelo with
    phase := .pSetup,
    flags := { Flags.clear with ehlo := true, eightbitmime := true },
    replies := [] }

/-- A session in phase TRANSACTION awaiting the filter's verdict on a
`RCPT TO` (registered in `wait_mfa_rcpt` per line 839), with some
recipients already accepted and a nonzero kick counter. -/
def sessRcptWait : Session :=
  { sessionAtHelo with
    phase := .pTransaction,
    rcptcount := 3,
    kickcount := 7,
    regs := { Reg.clear with mfaRcpt := true },
    replies := [],
    requests := [] }

/-- A session whose next command is the 50th without progress. -/
def sessKick49 : Session := { sessionAtHelo with kickcount := 49 }

/-! ### Helper lemmas -/

theorem findNul_append_zero (a r : List Nat) (ha : 0 ∉ a) :
    findNul (a ++ 0 :: r) = some a.length := by
  induction a with
  | nil => simp [findNul]
  | cons x t ih =>
    have hx : x ≠ 0 := fun h => ha (h ▸ List.mem_cons_self x t)
    have ht : 0 ∉ t := fun h => ha (List.mem_cons_of_mem x h)
    simp [findNul, hx, ih ht]

theorem cstr_no_zero (p : List Nat) (hp : 0 ∉ p) : cstr p = p := by
  induction p with
  | nil => rfl
  | cons x t ih =>
    have hx : x ≠ 0 := fun h => hp (h ▸ List.mem_cons_self x t)
    have ht : 0 ∉ t := fun h => hp (List.mem_cons_of_mem x h)
    simp only [cstr] at ih ⊢
    simp [List.takeWhile_cons, hx, ih ht]
    intro y hy h
    exact ht (h ▸ hy)

theorem cstr_append_zero (c r : List Nat) (hc : 0 ∉ c) :
    cstr (c ++ 0 :: r) = c := by
  induction c with
  | nil => simp [cstr, List.takeWhile]
  | cons x t ih =>
    have hx : x ≠ 0 := fun h => hc (h ▸ List.mem_cons_self x t)
    have ht : 0 ∉ t := fun h => hc (List.mem_cons_of_mem x h)
    simp [cstr, List.takeWhile] at ih ⊢
    simp [hx, ih ht]

theorem drop_append_cons (a : List Nat) (b : Nat) (r : List Nat) :
    (a ++ b :: r).drop (a.length + 1) = r := by
  induction a with
  | nil => simp
  | cons x t ih => simp [ih]

/-! ### Claim C4: SASL PLAIN credential splitting -/

/-- Counterexample to C4: the decoded credential `NUL NUL x y` has an
EMPTY authcid, yet `smtp_rfc4954_auth_plain` forwards it to the
authentication worker (user `""`, password `"xy"`) instead of replying
`501 Syntax error`: the checks are positional only. -/
theorem smtp_c4_empty_authcid_forwarded :
    smtp_auth_plain_parse 64 64 [0, 0, 120, 121] = .forward [] [120, 121] := by
  decide

/-- C4 as amended: on a decoded string `authzid NUL authcid NUL password`
(fields free of NUL bytes, within the decode buffer and the strlcpy
caps), the splitting logic of `smtp_rfc4954_auth_plain` forwards the
credential whenever at least two bytes follow the second NUL — the
authcid may be empty — and aborts with `501 Syntax error` whenever fewer
than two bytes follow the second NUL, regardless of the fields being
non-empty. -/
theorem smtp_c4_auth_plain_positional (uc pc : Nat) (a c p : List Nat)
    (ha : 0 ∉ a) (hc : 0 ∉ c) (hp : 0 ∉ p)
    (hlen : a.length + c.length + p.length + 2 ≤ 1023)
    (hcu : c.length < uc) (hcp : p.length < pc) :
    (2 ≤ p.length →
      smtp_auth_plain_parse uc pc (a ++ 0 :: (c ++ 0 :: p)) = .forward c p)
    ∧ (p.length ≤ 1 →
      smtp_auth_plain_parse uc pc (a ++ 0 :: (c ++ 0 :: p)) = .abort) := by
  have hlenbuf : (a ++ 0 :: (c ++ 0 :: p)).length
      = a.length + c.length + p.length + 2 := by
    simp
    omega
  have hfind1 : findNul (a ++ 0 :: (c ++ 0 :: p)) = some a.length :=
    findNul_append_zero a (c ++ 0 :: p) ha
  have hdrop1 : (a ++ 0 :: (c ++ 0 :: p)).drop (a.length + 1) = c ++ 0 :: p :=
    drop_append_cons a 0 (c ++ 0 :: p)
  have hfind2 : findNul (c ++ 0 :: p) = some c.length :=
    findNul_append_zero c p hc
  have hcstr1 : cstr (c ++ 0 :: p) = c := cstr_append_zero c p hc
  have hdrop2 : (a ++ 0 :: (c ++ 0 :: p)).drop (a.length + 1 + c.length + 1) = p := by
    have : a ++ 0 :: (c ++ 0 :: p) = (a ++ 0 :: c) ++ 0 :: p := by simp
    rw [this]
    have hl : (a ++ 0 :: c).length = a.length + 1 + c.length := by simp; omega
    rw [← hl]
    exact drop_append_cons (a ++ 0 :: c) 0 p
  have hcstr2 : cstr p = p := cstr_no_zero p hp
  constructor
  · intro hp2
    unfold smtp_auth_plain_parse
    rw [if_neg (by omega : ¬ 1023 < (a ++ 0 :: (c ++ 0 :: p)).length)]
    rw [hfind1]
    dsimp only
    rw [if_neg (by rw [hlenbuf]; omega : ¬ (a ++ 0 :: (c ++ 0 :: p)).length - 2 ≤ a.length)]
    rw [hdrop1, hcstr1]
    rw [if_neg (by omega : ¬ uc ≤ c.length)]
    rw [hfind2]
    dsimp only
    rw [if_neg (by rw [hlenbuf]; omega : ¬ (a ++ 0 :: (c ++ 0 :: p)).length - 2 ≤ a.length + 1 + c.length)]
    rw [hdrop2, hcstr2]
    rw [if_neg (by omega : ¬ pc ≤ p.length)]
  · intro hp1
    unfold smtp_auth_plain_parse
    rw [if_neg (by omega : ¬ 1023 < (a ++ 0 :: (c ++ 0 :: p)).length)]
    rw [hfind1]
    dsimp only
    by_cases hcp0 : c.length + p.length = 0
    · rw [if_pos (by rw [hlenbuf]; omega)]
    · rw [if_neg (by rw [hlenbuf]; omega : ¬ (a ++ 0 :: (c ++ 0 :: p)).length - 2 ≤ a.length)]
      rw [hdrop1, hcstr1]
      rw [if_neg (by omega : ¬ uc ≤ c.length)]
      rw [hfind2]
      dsimp only
      rw [if_pos (by rw [hlenbuf]; omega)]

/-- Witness for the amended C4 theorem at a concrete credential with an
empty authcid and a two-byte password. -/
theorem smtp_c4_auth_plain_positional_witness :
    smtp_auth_plain_parse 64 64 [97, 0, 0, 120, 121] = .forward [] [120, 121] := by
  have h := smtp_c4_auth_plain_positional 64 64 [97] [] [120, 121]
    (by decide) (by decide) (by decide) (by decide) (by decide) (by decide)
  exact h.1 (by decide)

/-! ### Claims C9 and C10: the body ingester -/

/-- C9: the dot-stuffing law of `smtp_queue_data` dispatched from
`IO_DATAIN` in state BODY.  With no failure recorded and the size within
bounds: the bare dot ends the body writing nothing; a longer line whose
first byte is `.` (byte 46) reaches the spool with that byte removed,
followed by LF, modulo the high-bit downgrade when `ALLOW_8BITMIME` is
unset; any other line reaches the spool unchanged (modulo the same
downgrade) followed by LF.  Hence a leading dot is stripped exactly when
it is not the only character. -/
theorem smtp_c9_dot_stuffing (s : BodySession) (line : List Nat)
    (hperm : s.dstatusPerm = false) (htemp : s.dstatusTemp = false)
    (hsz : s.spool.length + line.length + 1 ≤ s.maxsize)
    (hmax : s.maxsize ≤ SIZE_MOD - 1) :
    (line = [46] → bodyLineStep s line = (s, true))
    ∧ (∀ t, line = 46 :: t → t ≠ [] →
        bodyLineStep s line
          = ({ s with spool := s.spool ++ maskLine s.allow8bitmime t ++ [10] },
             false))
    ∧ (line.head? ≠ some 46 →
        bodyLineStep s line
          = ({ s with spool := s.spool ++ maskLine s.allow8bitmime line ++ [10] },
             false)) := by
  unfold SIZE_MOD at hmax
  refine ⟨fun h => by rw [h]; rfl, ?_, ?_⟩
  · intro t ht hne
    subst ht
    have hd : (46 :: t) ≠ [46] := by
      intro h
      cases h
      exact hne rfl
    unfold bodyLineStep smtp_queue_data
    rw [if_neg hd]
    rw [if_neg (by simp [hperm, htemp] : ¬ (s.dstatusPerm = true ∨ s.dstatusTemp = true))]
    dsimp only
    rw [if_pos (by simp : (46 :: t).head? = some 46)]
    dsimp only [List.tail_cons]
    have hlt : t.length + 1 ≤ (46 :: t).length := by simp
    rw [if_neg (by simp at hsz ⊢; unfold SIZE_MOD; omega :
      ¬ (SIZE_MOD - 1 - s.spool.length < t.length + 1
          ∨ s.maxsize < s.spool.length + t.length + 1))]
  · intro hh
    have hd : line ≠ [46] := by
      intro h
      rw [h] at hh
      exact hh rfl
    unfold bodyLineStep smtp_queue_data
    rw [if_neg hd]
    rw [if_neg (by simp [hperm, htemp] : ¬ (s.dstatusPerm = true ∨ s.dstatusTemp = true))]
    dsimp only
    rw [if_neg hh]
    rw [if_neg (by simp at hsz ⊢; unfold SIZE_MOD; omega :
      ¬ (SIZE_MOD - 1 - s.spool.length < line.length + 1
          ∨ s.maxsize < s.spool.length + line.length + 1))]

/-- Witness for C9 at a concrete body state and the line `..é` (bytes
46 46 200) with the downgrade active: the spool receives `.é&0x7f` plus
LF, that is bytes 46 72 10. -/
theorem smtp_c9_dot_stuffing_witness :
    bodyLineStep ⟨false, false, false, [], 100, []⟩ [46, 46, 200]
      = (⟨false, false, false, [46, 72, 10], 100, []⟩, false) := by
  have h := smtp_c9_dot_stuffing ⟨false, false, false, [], 100, []⟩ [46, 46, 200]
    rfl rfl (by decide) (by decide)
  rw [(h.2.1 [46, 200] rfl (by decide) : _)]
  decide

/-- C10: when a delivery failure (`DS_TEMPFAILURE` or `DS_PERMFAILURE`)
is already recorded, `smtp_queue_data` discards the line entirely — the
body state (spool contents, both status bits, flag, size limit, reply
log) is returned unchanged, so no write, no size check, no flag change
and no reply happen for that line. -/
theorem smtp_c10_failure_discard (s : BodySession) (line : List Nat)
    (h : s.dstatusPerm = true ∨ s.dstatusTemp = true) :
    smtp_queue_data s line = s := by
  unfold smtp_queue_data
  rcases h with h | h <;> simp [h]

/-- Witness for C10: a line with a fresh size violation and a leading dot
is discarded untouched on a tempfailed body state. -/
theorem smtp_c10_failure_discard_witness :
    smtp_queue_data ⟨true, false, true, [104, 105, 10], 5, []⟩ [46, 200, 201]
      = ⟨true, false, true, [104, 105, 10], 5, []⟩ :=
  smtp_c10_failure_discard ⟨true, false, true, [104, 105, 10], 5, []⟩
    [46, 200, 201] (Or.inr rfl)

/-! ### Claim C7: the line-length cap -/

/-- C7: in any state, one `IO_DATAIN` iteration replies
`500 5.0.0 Line too long`, enters `S_QUIT` and stops reading exactly when
either no full line was framed and the buffered length has reached
`SMTP_LINE_MAX`, or the framed line (without CRLF) has length at least
`SMTP_LINE_MAX`; shorter framed lines never produce that outcome. -/
theorem smtp_c7_line_too_long (st : SmtpState) (buf : List Char) :
    ((smtp_datain_step st buf).reply = some (.text "500 5.0.0 Line too long")
      ∧ (smtp_datain_step st buf).nextState = some .sQuit
      ∧ (smtp_datain_step st buf).readStopped = true)
    ↔ ((iobuf_getline_m buf = none ∧ SMTP_LINE_MAX ≤ buf.length)
       ∨ (∃ l r, iobuf_getline_m buf = some (l, r) ∧ SMTP_LINE_MAX ≤ l.length)) := by
  have hne : (Reply.text "500 5.0.0 Pipelining not supported")
      ≠ (Reply.text "500 5.0.0 Line too long") := by decide
  unfold smtp_datain_step
  cases hgl : iobuf_getline_m buf with
  | none =>
    by_cases hb : SMTP_LINE_MAX ≤ buf.length
    · simp [hb, hgl]
    · simp [hb, hgl]
  | some lr =>
    obtain ⟨l, r⟩ := lr
    dsimp only
    by_cases hl : SMTP_LINE_MAX ≤ l.length
    · simp [hl]
    · rw [if_neg hl]
      constructor
      · intro hcl
        exfalso
        by_cases h2 : st = .sBody ∧ l ≠ ['.']
        · rw [if_pos h2] at hcl
          exact absurd hcl.1 (by simp)
        · rw [if_neg h2] at hcl
          by_cases h3 : r ≠ []
          · rw [if_pos h3] at hcl
            exact hne (Option.some.inj hcl.1)
          · rw [if_neg h3] at hcl
            by_cases h4 : st = .sBody
            · rw [if_pos h4] at hcl
              exact absurd hcl.1 (by simp)
            · rw [if_neg h4] at hcl
              exact absurd hcl.1 (by simp)
      · intro hr
        exfalso
        rcases hr with ⟨h, _⟩ | ⟨l2, r2, h, hlen⟩
        · exact absurd h (by simp)
        · simp only [Option.some.injEq, Prod.mk.injEq] at h
          exact hl (by rw [h.1]; exact hlen)

/-- No LF occurs in a buffer made of letters only. -/
theorem findLF_replicate_a (n : Nat) : findLF (List.replicate n 'a') = none := by
  induction n with
  | zero => rfl
  | succ k ih =>
    simp [List.replicate, findLF, ih]

/-- Witness for C7: a buffer of 1024 bytes with no LF triggers the
oversize outcome. -/
theorem smtp_c7_line_too_long_witness :
    (smtp_datain_step .sHelo (List.replicate 1024 'a')).reply
      = some (.text "500 5.0.0 Line too long")
    ∧ (smtp_datain_step .sHelo (List.replicate 1024 'a')).nextState
      = some .sQuit
    ∧ (smtp_datain_step .sHelo (List.replicate 1024 'a')).readStopped = true :=
  (smtp_c7_line_too_long .sHelo (List.replicate 1024 'a')).mpr
    (Or.inl ⟨by unfold iobuf_getline_m; rw [findLF_replicate_a],
             by rw [List.length_replicate]; decide⟩)

/-! ### Claim C3: residual bytes after the terminating dot -/

/-- C3 fails on the code: the `IO_DATAIN` handler performs the residual
bytes (pipelining) check BEFORE the end-of-body check, so a terminating
`.` framed in state BODY with bytes still buffered (here `.CRLF QUIT
CRLF`) is answered with `500 5.0.0 Pipelining not supported` and a
transition to `S_QUIT` instead of proceeding to end-of-body; the
end-of-body action is taken only when the buffer is empty after the
dot. -/
theorem smtp_c3_dot_pipelining_rejected :
    smtp_datain_step .sBody (".\r\nQUIT\r\n").toList
      = ⟨.halt, some (.text "500 5.0.0 Pipelining not supported"),
         some .sQuit, true⟩
    ∧ smtp_datain_step .sBody (".\r\n").toList = ⟨.endOfBody, none, none, true⟩
    ∧ smtp_datain_step .sHelo ("NOOP\r\nNOOP\r\n").toList
      = ⟨.halt, some (.text "500 5.0.0 Pipelining not supported"),
         some .sQuit, true⟩ := by
  refine ⟨by decide, by decide, by decide⟩

/-! ### Claim C1: ESMTP MAIL FROM parameters -/

/-- C1 fails on the code, twice over.  First, `smtp_mailaddr` runs on the
raw argument BEFORE `smtp_parse_mail_args`, so a MAIL FROM carrying any
trailing ESMTP parameter fails the `<...>` check and is answered
`553 5.1.7 Sender address syntax error`: the parameter tokens are never
examined.  Second, the parameter parser itself has the `strcasecmp`
against `BODY=8BITMIME` inverted: run on a string with trailing tokens it
REJECTS exactly `BODY=8BITMIME` with the `503 5.5.4 Unsupported option`
reply and silently ACCEPTS any unknown token, while `AUTH=` prefixes and
`BODY=7BIT` behave as documented. -/
theorem smtp_c1_mail_args_inverted :
    (smtp_command extDefault sessSetupEhlo
        ("MAIL FROM:<a@b> BODY=8BITMIME").toList).replies
      = [.text "553 5.1.7 Sender address syntax error"]
    ∧ smtp_parse_mail_args true ("x BODY=8BITMIME").toList
      = .unsupported (("BODY=8BITMIME").toList)
    ∧ smtp_parse_mail_args true ("x FOO=BAR").toList
      = .accepted true (("x").toList)
    ∧ smtp_parse_mail_args true ("x AUTH=me").toList
      = .accepted true (("x").toList)
    ∧ smtp_parse_mail_args true ("x BODY=7BIT").toList
      = .accepted false (("x").toList) := by
  refine ⟨by decide, by decide, by decide, by decide, by decide⟩

/-! ### Claim C2: who replies 250 to an accepted RCPT -/

/-- C2 fails on the code: on a session awaiting the filter verdict for a
`RCPT TO`, the `IMSG_MFA_RCPT` handler with status `MFA_OK` (code 250)
DIRECTLY queues the `250 2.0.0 Recipient ok` reply, increments
`rcpt_count`, decrements `kick_count`, composes no queue request at all,
and pops the session from `wait_mfa_rcpt` — after which the
`IMSG_QUEUE_SUBMIT_ENVELOPE` handler's `tree_xget` (and the
`IMSG_QUEUE_COMMIT_ENVELOPES` handler's `tree_xpop`) on that id is fatal
(modelled as `none`), so the streaming path the claim describes can never
produce the reply. -/
theorem smtp_c2_rcpt_direct_reply :
    (imsg_mfa_rcpt sessRcptWait true 250).map
        (fun t => (t.replies, t.rcptcount, t.kickcount, t.regs.mfaRcpt, t.requests))
      = some ([.recipientOk 250], 4, 6, false, [])
    ∧ ((imsg_mfa_rcpt sessRcptWait true 250).bind
        (fun t => imsg_queue_submit_envelope t true)) = none
    ∧ ((imsg_mfa_rcpt sessRcptWait true 250).bind
        (fun t => imsg_queue_commit_envelopes t)) = none := by
  refine ⟨by decide, by decide, by decide⟩

/-! ### Claim C5: registries after disposal -/

/-- Counterexample to C5: a session created on a plain listener, approved
by the filter, that issues a valid HELO (which registers it in
`wait_mfa_helo`, line 718) and then hits the session timeout is disposed
by `smtp_free` (reason `timeout`) — but `smtp_free` pops only
`wait_mfa_data` (line 1174), so after disposal the session is STILL
registered in `wait_mfa_helo`. -/
theorem smtp_c5_timeout_leaves_registry :
    ((smtp_free_sess
        (smtp_datain_command extDefault sessionAtHelo (("HELO mx.example").toList))
        "timeout").freed = some "timeout")
    ∧ ((smtp_free_sess
        (smtp_datain_command extDefault sessionAtHelo (("HELO mx.example").toList))
        "timeout").regs.mfaHelo = true) := by
  refine ⟨by decide, by decide⟩

/-- `wait_mfa_data` is the only registry that may hold the session. -/
def onlyDataReg (g : Reg) : Prop :=
  g.lkaPtr = false ∧ g.mfaConnect = false ∧ g.mfaHelo = false ∧
  g.mfaMailfrom = false ∧ g.mfaRcpt = false ∧ g.parentAuth = false ∧
  g.queueMsg = false ∧ g.queueFd = false ∧ g.queueCommit = false

/-- C5 as amended: `smtp_free` removes the session from `wait_mfa_data`
and from no other registry; consequently, when the session was in no
registry other than possibly `wait_mfa_data` at disposal time (the
invariant during body ingest), no registry contains it afterwards.  A
disposal that happens while a collaborator reply is pending (for example
a timeout while awaiting the filter's HELO verdict) leaves that
registration behind. -/
theorem smtp_c5_free_clears_only_data (s : Session) (reason : String)
    (h : onlyDataReg s.regs) :
    (smtp_free_sess s reason).regs = Reg.clear
    ∧ (smtp_free_sess s reason).freed = some reason
    ∧ (smtp_free_sess s reason).regs.mfaData = false := by
  obtain ⟨h1, h2, h3, h4, h5, h6, h7, h8, h9⟩ := h
  refine ⟨?_, rfl, rfl⟩
  show { s.regs with mfaData := false } = Reg.clear
  cases hreg : s.regs with
  | mk l mc md mh mm mr pa qm qf qc =>
    rw [hreg] at h1 h2 h3 h4 h5 h6 h7 h8 h9
    simp only at h1 h2 h3 h4 h5 h6 h7 h8 h9
    subst h1 h2 h3 h4 h5 h6 h7 h8 h9
    rfl

/-- Witness for the amended C5 theorem: a session whose only live
registration is `wait_mfa_data` (the body-ingest situation) is in no
registry after `smtp_free`. -/
theorem smtp_c5_free_clears_only_data_witness :
    (smtp_free_sess
        { sessionAtHelo with regs := { Reg.clear with mfaData := true } }
        "done").regs = Reg.clear
    ∧ (smtp_free_sess
        { sessionAtHelo with regs := { Reg.clear with mfaData := true } }
        "done").freed = some "done" := by
  have h := smtp_c5_free_clears_only_data
    { sessionAtHelo with regs := { Reg.clear with mfaData := true } } "done"
    ⟨rfl, rfl, rfl, rfl, rfl, rfl, rfl, rfl, rfl⟩
  exact ⟨h.1, h.2.1⟩

/-! ### Kick-counter frame lemmas, towards claims C6 and C8 -/

theorem authPlainConsume_kick_frame (ext : Ext) (s : Session) (a : List Char) :
    (authPlainConsume ext s a).kickcount = s.kickcount
    ∧ (authPlainConsume ext s a).flags = s.flags := by
  unfold authPlainConsume
  split
  · exact ⟨rfl, rfl⟩
  · split
    · exact ⟨rfl, rfl⟩
    · exact ⟨rfl, rfl⟩

theorem auth_plain_kick_frame (ext : Ext) (s : Session) (arg : Option (List Char)) :
    (smtp_rfc4954_auth_plain ext s arg).kickcount = s.kickcount
    ∧ (smtp_rfc4954_auth_plain ext s arg).flags = s.flags := by
  unfold smtp_rfc4954_auth_plain
  by_cases h1 : s.state = .sHelo
  · rw [if_pos h1]
    cases arg with
    | none => exact ⟨rfl, rfl⟩
    | some a => exact authPlainConsume_kick_frame ext _ a
  · rw [if_neg h1]
    by_cases h2 : s.state = .sAuthInit
    · rw [if_pos h2]
      exact authPlainConsume_kick_frame ext s _
    · rw [if_neg h2]
      exact ⟨rfl, rfl⟩

theorem auth_login_kick_frame (ext : Ext) (s : Session) (arg : Option (List Char)) :
    (smtp_rfc4954_auth_login ext s arg).kickcount = s.kickcount
    ∧ (smtp_rfc4954_auth_login ext s arg).flags = s.flags := by
  unfold smtp_rfc4954_auth_login
  by_cases h1 : s.state = .sHelo
  · rw [if_pos h1]
    exact ⟨rfl, rfl⟩
  · rw [if_neg h1]
    by_cases h2 : s.state = .sAuthUsername
    · rw [if_pos h2]
      split
      · exact ⟨rfl, rfl⟩
      · split
        · exact ⟨rfl, rfl⟩
        · exact ⟨rfl, rfl⟩
    · rw [if_neg h2]
      by_cases h3 : s.state = .sAuthPassword
      · rw [if_pos h3]
        split
        · exact ⟨rfl, rfl⟩
        · split
          · exact ⟨rfl, rfl⟩
          · exact ⟨rfl, rfl⟩
      · rw [if_neg h3]
        exact ⟨rfl, rfl⟩

theorem cmdHeloCase_kick_frame (ext : Ext) (s : Session) (b : Bool)
    (args : Option (List Char)) :
    (cmdHeloCase ext s b args).kickcount = s.kickcount
    ∧ ((cmdHeloCase ext s b args).flags.kick = true → s.flags.kick = true) := by
  unfold cmdHeloCase
  split
  · exact ⟨rfl, fun h => h⟩
  · split
    · exact ⟨rfl, fun h => h⟩
    · split
      · exact ⟨rfl, fun h => h⟩
      · cases b
        · exact ⟨rfl, fun h => by simp [Flags.clear] at h⟩
        · exact ⟨rfl, fun h => by simp [Flags.clear] at h⟩

theorem cmdStarttlsCase_kick_frame (s : Session) (args : Option (List Char)) :
    (cmdStarttlsCase s args).kickcount = s.kickcount
    ∧ (cmdStarttlsCase s args).flags = s.flags := by
  unfold cmdStarttlsCase
  split
  · exact ⟨rfl, rfl⟩
  · split
    · exact ⟨rfl, rfl⟩
    · split
      · exact ⟨rfl, rfl⟩
      · exact ⟨rfl, rfl⟩

theorem cmdAuthCase_kick_frame (ext : Ext) (s : Session)
    (args : Option (List Char)) :
    (cmdAuthCase ext s args).kickcount = s.kickcount
    ∧ (cmdAuthCase ext s args).flags = s.flags := by
  unfold cmdAuthCase
  split
  · exact ⟨rfl, rfl⟩
  · split
    · exact ⟨rfl, rfl⟩
    · split
      · exact ⟨rfl, rfl⟩
      · split
        · exact ⟨rfl, rfl⟩
        · dsimp only
          repeat' split
          all_goals
            first
            | exact ⟨rfl, rfl⟩
            | exact auth_plain_kick_frame ext s _
            | exact auth_login_kick_frame ext s _

theorem cmdMailFromCase_kick_frame (ext : Ext) (s : Session)
    (args : Option (List Char)) :
    (cmdMailFromCase ext s args).kickcount = s.kickcount
    ∧ ((cmdMailFromCase ext s args).flags.kick = true → s.flags.kick = true) := by
  unfold cmdMailFromCase
  dsimp only
  repeat' split
  all_goals exact ⟨rfl, fun h => h⟩

theorem cmdRcptToCase_kick_frame (ext : Ext) (s : Session)
    (args : Option (List Char)) :
    (cmdRcptToCase ext s args).kickcount = s.kickcount
    ∧ (cmdRcptToCase ext s args).flags = s.flags := by
  unfold cmdRcptToCase
  split
  · exact ⟨rfl, rfl⟩
  · split
    · exact ⟨rfl, rfl⟩
    · split
      · exact ⟨rfl, rfl⟩
      · exact ⟨rfl, rfl⟩

theorem cmdRsetCase_kick_frame (s : Session) :
    (cmdRsetCase s).kickcount = s.kickcount
    ∧ (cmdRsetCase s).flags = s.flags := by
  unfold cmdRsetCase
  split
  · exact ⟨rfl, rfl⟩
  · exact ⟨rfl, rfl⟩

theorem cmdDataCase_kick_frame (s : Session) :
    (cmdDataCase s).kickcount = s.kickcount
    ∧ (cmdDataCase s).flags = s.flags := by
  unfold cmdDataCase
  split
  · exact ⟨rfl, rfl⟩
  · split
    · exact ⟨rfl, rfl⟩
    · exact ⟨rfl, rfl⟩

theorem kick_of_flags_eq {t s : Session} (h : t.flags = s.flags) :
    t.flags.kick = true → s.flags.kick = true :=
  fun hk => h ▸ hk

theorem smtp_command_dispatch_kick_frame (ext : Ext) (s : Session)
    (line : List Char) :
    (smtp_command_dispatch ext s line).kickcount = s.kickcount
    ∧ ((smtp_command_dispatch ext s line).flags.kick = true →
        s.flags.kick = true) := by
  unfold smtp_command_dispatch
  by_cases h1 : s.state = .sAuthInit
  · rw [if_pos h1]
    exact ⟨(auth_plain_kick_frame ext s (some line)).1,
           kick_of_flags_eq (auth_plain_kick_frame ext s (some line)).2⟩
  · rw [if_neg h1]
    by_cases h2 : s.state = .sAuthUsername ∨ s.state = .sAuthPassword
    · rw [if_pos h2]
      exact ⟨(auth_login_kick_frame ext s (some line)).1,
             kick_of_flags_eq (auth_login_kick_frame ext s (some line)).2⟩
    · rw [if_neg h2]
      dsimp only
      split
      · exact cmdHeloCase_kick_frame ext s false _
      · exact cmdHeloCase_kick_frame ext s true _
      · exact ⟨(cmdStarttlsCase_kick_frame s _).1,
               kick_of_flags_eq (cmdStarttlsCase_kick_frame s _).2⟩
      · exact ⟨(cmdAuthCase_kick_frame ext s _).1,
               kick_of_flags_eq (cmdAuthCase_kick_frame ext s _).2⟩
      · exact cmdMailFromCase_kick_frame ext s _
      · exact ⟨(cmdRcptToCase_kick_frame ext s _).1,
               kick_of_flags_eq (cmdRcptToCase_kick_frame ext s _).2⟩
      · exact ⟨(cmdDataCase_kick_frame s).1,
               kick_of_flags_eq (cmdDataCase_kick_frame s).2⟩
      · exact ⟨(cmdRsetCase_kick_frame s).1,
               kick_of_flags_eq (cmdRsetCase_kick_frame s).2⟩
      · exact ⟨rfl, fun h => h⟩
      · exact ⟨rfl, fun h => h⟩
      · exact ⟨rfl, fun h => h⟩
      · exact ⟨rfl, fun h => h⟩

theorem smtp_command_kick_frame (ext : Ext) (s : Session) (line : List Char) :
    (smtp_command ext s line).kickcount = (s.kickcount + 1) % SIZE_MOD
    ∧ ((smtp_command ext s line).flags.kick = true →
        s.flags.kick = true ∨ SMTP_KICKTHRESHOLD ≤ (s.kickcount + 1) % SIZE_MOD)
    ∧ (SMTP_KICKTHRESHOLD ≤ (s.kickcount + 1) % SIZE_MOD →
        (smtp_command ext s line).flags.kick = true) := by
  unfold smtp_command
  by_cases hth : SMTP_KICKTHRESHOLD ≤ (s.kickcount + 1) % SIZE_MOD
  · rw [if_pos hth]
    exact ⟨rfl, fun _ => Or.inr hth, fun _ => rfl⟩
  · rw [if_neg hth]
    have h := smtp_command_dispatch_kick_frame ext
      { s with kickcount := (s.kickcount + 1) % SIZE_MOD } line
    exact ⟨h.1, fun hk => Or.inl (h.2 hk), fun hc => absurd hc hth⟩

/-! ### Claim C6: RSET in phase INIT -/

/-- Counterexample to C6: in phase INIT (session fresh after the banner),
`RSET` is NOT accepted as a no-op — it receives the same out-of-phase
placeholder rejection as the other non-INIT commands, namely
`XXX Command not allowed at this point.` (not a 5xx reply), while the
phase and state indeed stay untouched. -/
theorem smtp_c6_rset_init_rejected :
    (smtp_command extDefault sessionAtHelo (("RSET").toList)).replies
      = [.banner, .text "XXX Command not allowed at this point."]
    ∧ (smtp_command extDefault sessionAtHelo (("RSET").toList)).phase = .pInit
    ∧ (smtp_command extDefault sessionAtHelo (("RSET").toList)).state = .sHelo := by
  refine ⟨by decide, by decide, by decide⟩

/-- C6 as amended: in phase INIT (protocol state `S_HELO`, below the kick
threshold), `RSET` takes the `phase != PHASE_TRANSACTION` rejection of
lines 843-845: the session is returned identical except for the kick
counter increment and the queued placeholder reply
`XXX Command not allowed at this point.` — no phase, state, flag,
envelope, registry or request mutation, and no 5xx code. -/
theorem smtp_c6_rset_out_of_phase (ext : Ext) (s : Session)
    (hs : s.state = .sHelo) (hp : s.phase = .pInit)
    (hlt : s.kickcount + 1 < SMTP_KICKTHRESHOLD) :
    smtp_command ext s (("RSET").toList)
      = { s with kickcount := s.kickcount + 1,
                 replies := s.replies ++
                   [.text "XXX Command not allowed at this point."] } := by
  simp only [SMTP_KICKTHRESHOLD] at hlt
  have hsm : s.kickcount + 1 < SIZE_MOD := by
    simp only [SIZE_MOD]
    omega
  have hmod : (s.kickcount + 1) % SIZE_MOD = s.kickcount + 1 :=
    Nat.mod_eq_of_lt hsm
  have hsplit :
      (if startsWithCI ("mail from:").toList (("RSET").toList)
            ∨ startsWithCI ("rcpt to:").toList (("RSET").toList)
        then splitFirst ':' (("RSET").toList)
        else splitFirst ' ' (("RSET").toList)) = none := by decide
  have hlookup : cmdLookup (("RSET").toList) = some .cRset := by decide
  unfold smtp_command
  rw [hmod, if_neg (by simp only [SMTP_KICKTHRESHOLD]; omega)]
  unfold smtp_command_dispatch
  dsimp only
  rw [if_neg (by rw [hs]; decide), if_neg (by rw [hs]; decide)]
  rw [hsplit]
  dsimp only
  rw [hlookup]
  dsimp only
  unfold cmdRsetCase
  rw [if_pos (by rw [hp]; decide)]
  rfl

/-- Witness for the amended C6 theorem at the concrete post-banner
session. -/
theorem smtp_c6_rset_out_of_phase_witness :
    smtp_command extDefault sessionAtHelo (("RSET").toList)
      = { sessionAtHelo with
          kickcount := 1,
          replies := sessionAtHelo.replies ++
            [.text "XXX Command not allowed at this point."] } :=
  smtp_c6_rset_out_of_phase extDefault sessionAtHelo (by decide) (by decide)
    (by decide)

/-! ### Claim C8: the kick policy -/

/-- C8: every line handed to `smtp_command` — commands and SASL sub-lines
alike — increments `kickcount` (modulo the size of `size_t`); starting
from an unkicked session, `F_KICK` is set by a command exactly when the
incremented counter reaches `SMTP_KICKTHRESHOLD` (50); each progress
event resets the counter to zero (filter HELO approval, successful
authentication, successful message commit, TLS establishment) or
decrements it (recipient acceptance); and concretely 50 consecutive
`NOOP` commands on a fresh session dispose it with reason `kick` and bump
the `smtp.kick` statistic, while 49 do not. -/
theorem smtp_c8_kick_threshold :
    (∀ ext s line,
      (smtp_command ext s line).kickcount = (s.kickcount + 1) % SIZE_MOD)
    ∧ (∀ ext s line, s.flags.kick = false →
        ((smtp_command ext s line).flags.kick = true
          ↔ SMTP_KICKTHRESHOLD ≤ (s.kickcount + 1) % SIZE_MOD))
    ∧ (∀ ext s code t, imsg_mfa_helo ext s true code = some t → t.kickcount = 0)
    ∧ (∀ s t, imsg_parent_auth s true = some t → t.kickcount = 0)
    ∧ (∀ s t, imsg_queue_commit_message s true = some t → t.kickcount = 0)
    ∧ (∀ ext s, (smtp_tls_ready ext s).kickcount = 0)
    ∧ (∀ s code t, imsg_mfa_rcpt s true code = some t →
        t.kickcount = decSize s.kickcount)
    ∧ (runCommandLines extDefault sessionAtHelo
        (List.replicate 50 (("NOOP").toList))).freed = some "kick"
    ∧ (runCommandLines extDefault sessionAtHelo
        (List.replicate 50 (("NOOP").toList))).statSmtpKick = 1
    ∧ (runCommandLines extDefault sessionAtHelo
        (List.replicate 49 (("NOOP").toList))).freed = none := by
  refine ⟨?_, ?_, ?_, ?_, ?_, ?_, ?_, by decide, by decide, by decide⟩
  · intro ext s line
    exact (smtp_command_kick_frame ext s line).1
  · intro ext s line hkf
    constructor
    · intro hk
      rcases (smtp_command_kick_frame ext s line).2.1 hk with h | h
      · rw [hkf] at h
        exact absurd h (by simp)
      · exact h
    · exact (smtp_command_kick_frame ext s line).2.2
  · intro ext s code t hh
    unfold imsg_mfa_helo at hh
    split at hh
    · exact absurd hh (by simp)
    · rw [if_neg (by simp)] at hh
      dsimp only at hh
      injection hh with hh
      rw [← hh]
  · intro s t hh
    unfold imsg_parent_auth at hh
    split at hh
    · exact absurd hh (by simp)
    · rw [if_pos rfl] at hh
      injection hh with hh
      rw [← hh]
  · intro s t hh
    unfold imsg_queue_commit_message at hh
    split at hh
    · exact absurd hh (by simp)
    · rw [if_neg (by simp)] at hh
      injection hh with hh
      rw [← hh]
  · intro ext s
    unfold smtp_tls_ready
    split
    · rfl
    · rfl
  · intro s code t hh
    unfold imsg_mfa_rcpt at hh
    split at hh
    · exact absurd hh (by simp)
    · rw [if_neg (by simp)] at hh
      injection hh with hh
      rw [← hh]

/-- Witness for C8 at the concrete session whose next command is the
50th without progress: the NOOP that makes the counter reach 50 sets
`F_KICK`. -/
theorem smtp_c8_kick_threshold_witness :
    (smtp_command extDefault sessKick49 (("NOOP").toList)).flags.kick = true := by
  have h := smtp_c8_kick_threshold.2.1 extDefault sessKick49 (("NOOP").toList)
    (by decide)
  exact h.mpr (by decide)

end Smtp
